import Mathlib

/-!
Verification development for the drvyn-dashboard client.

Shallow embedding of the TypeScript sources:
  lib/api.ts                                    (HTTP client, token management, API modules)
  src/components/bookings/data-table.tsx        (bookings table)
  src/components/insurance-requests/data-table.tsx (insurance table, process-wide cache)
  src/components/requests/data-table.tsx        (general-requests table, process-wide cache)
  src/app/dashboard/page.tsx                    (dashboard page)

JavaScript strings are modelled by Lean `String`, `undefined`-able fields by
`Option`, machine state by explicit record passing.  Asynchronous calls are
modelled by passing the settled outcome of the awaited operation as an
explicit argument.
-/

namespace Drvyn

/-! ### JavaScript string primitives -/

/-- Character-list prefix test: `listStartsWith needle hay` holds when `needle`
is an initial segment of `hay`. -/
def listStartsWith : List Char → List Char → Bool
  | [], _ => true
  | _ :: _, [] => false
  | a :: as, b :: bs => a == b && listStartsWith as bs

/-- Model of JavaScript `hay.includes(needle)`: case-sensitive substring test. -/
def strIncludes (hay needle : String) : Bool :=
  (List.range (hay.data.length + 1)).any (fun i => listStartsWith needle.data (hay.data.drop i))

/-- Model of JavaScript `toLowerCase` (ASCII lowercasing, applied per
character). -/
def strToLower (s : String) : String :=
  ⟨s.data.map Char.toLower⟩

/-- Model of `hay.toLowerCase().includes(needle.toLowerCase())`. -/
def strIncludesCI (hay needle : String) : Bool :=
  strIncludes (strToLower hay) (strToLower needle)

/-- Model of `field?.toLowerCase().includes(needle.toLowerCase())` on an
optional field: an absent field never matches. -/
def optIncludesCI (field : Option String) (needle : String) : Bool :=
  match field with
  | some s => strIncludesCI s needle
  | none => false

/-- Model of `field?.includes(needle)` on an optional field (case-sensitive,
as used for `item.phone` in the bookings table). -/
def optIncludes (field : Option String) (needle : String) : Bool :=
  match field with
  | some s => strIncludes s needle
  | none => false

/-! ### Data model

One record shape covers the fields this UI reads from `Booking`,
`InsuranceRequest` and `GeneralRequest`: identifier, phone, brand, model,
year (all optional in the TS types, accessed with `?.`), status and a
creation timestamp (epoch milliseconds, as produced by `getTime()`). -/

structure Row where
  _id : Option String
  phone : Option String
  brand : Option String
  model : Option String
  year : Option String
  status : String
  createdAt : Nat
deriving Repr, DecidableEq

/-! ### lib/api.ts — auth token management

The module holds a process-wide `authToken` variable mirrored into
`localStorage` under the fixed key `authToken`.  We model the pair and the
three exported functions.  The `typeof window !== 'undefined'` guards are
taken in their client-side (browser) branch, which is where every caller in
this repository runs. -/

structure AuthState where
  /-- the module-level `let authToken: string | null` variable -/
  authToken : Option String
  /-- `localStorage.getItem('authToken')` -/
  stored : Option String
deriving Repr, DecidableEq

/-- `setAuthToken`: writes the in-memory variable and persistent storage. -/
def setAuthToken (_st : AuthState) (token : String) : AuthState :=
  { authToken := some token, stored := some token }

/-- `getAuthToken`: lazily loads the in-memory variable from storage, then
returns it.  Returns the token together with the updated module state. -/
def getAuthToken (st : AuthState) : Option String × AuthState :=
  match st.authToken with
  | some t => (some t, st)
  | none => (st.stored, { st with authToken := st.stored })

/-- `clearAuthToken`: clears the in-memory variable and removes the
persisted key. -/
def clearAuthToken (_st : AuthState) : AuthState :=
  { authToken := none, stored := none }

/-! ### lib/api.ts — the HTTP client `apiRequest` -/

/-- The tagged result shape `ApiResponse<T>` returned by `apiRequest`. -/
structure ApiResponse (T : Type) where
  success : Bool
  data : Option T
  error : Option String
deriving Repr, DecidableEq

/-- The settled outcome of the awaited `fetch` (and the subsequent awaited
body reads): either the network layer threw, or a response arrived with a
status code, a body text, and the result of parsing the body as JSON.  The
parsed JSON value is kept opaque at type `T`. -/
inductive FetchOutcome (T : Type) where
  | networkError (msg : String)
  | response (status : Nat) (bodyText : String) (json : Except String T)

/-- Model of `response.ok`: status in the inclusive range 200..299. -/
def responseOk (status : Nat) : Bool :=
  decide (200 ≤ status) && decide (status < 300)

/-- Observable side effects of one `apiRequest` call. -/
structure RequestEffects where
  /-- module auth state after the call -/
  auth : AuthState
  /-- whether an `Authorization: Bearer` header was attached -/
  authHeaderSent : Bool
  /-- whether `window.location.href = '/login'` was executed -/
  redirectedToLogin : Bool
deriving Repr, DecidableEq

/-- The HTTP client `apiRequest`.  Reads the token, issues the request
(whose settled outcome is the `outcome` argument) and converts every
result, including every thrown error, into a tagged `ApiResponse` via the
surrounding try/catch. -/
def apiRequest {T : Type} (st0 : AuthState) (outcome : FetchOutcome T) :
    RequestEffects × ApiResponse T :=
  let token := (getAuthToken st0).1
  let st := (getAuthToken st0).2
  match outcome with
  | .networkError msg =>
      -- the catch branch: error instanceof Error, report its message
      (⟨st, token.isSome, false⟩, ⟨false, none, some msg⟩)
  | .response status bodyText json =>
      if status == 401 then
        -- clearAuthToken(); redirect to /login; throw caught by the catch
        (⟨clearAuthToken st, token.isSome, true⟩,
         ⟨false, none, some "Authentication failed"⟩)
      else if !responseOk status then
        -- throw new Error(`HTTP error! status: ... - ...`), caught below
        (⟨st, token.isSome, false⟩,
         ⟨false, none, some ("HTTP error! status: " ++ toString status ++ " - " ++ bodyText)⟩)
      else
        match json with
        | .ok v => (⟨st, token.isSome, false⟩, ⟨true, some v, none⟩)
        | .error msg => (⟨st, token.isSome, false⟩, ⟨false, none, some msg⟩)

/-! ### lib/api.ts — query-string construction (`URLSearchParams`)

`URLSearchParams` keeps an ordered list of name/value pairs; its string form
is the application/x-www-form-urlencoded serialization: pairs joined by `&`,
name and value joined by `=`, each percent-encoded (alphanumerics and
`*-._` kept, space as `+`, every other byte of the UTF-8 encoding as
`%XX` with uppercase hex digits). -/

/-- Is `c` serialized unchanged by x-www-form-urlencoded encoding? -/
def formUnreserved (c : Char) : Bool :=
  c.isAlphanum || c == '*' || c == '-' || c == '.' || c == '_'

/-- Uppercase hexadecimal digit for `n < 16`. -/
def hexDigit (n : Nat) : Char :=
  if n < 10 then Char.ofNat (48 + n) else Char.ofNat (55 + n)

/-- Percent-encode one byte. -/
def percentEncodeByte (b : Nat) : String :=
  String.mk ['%', hexDigit (b / 16 % 16), hexDigit (b % 16)]

/-- Serialize one character under x-www-form-urlencoded encoding. -/
def formEncodeChar (c : Char) : String :=
  if formUnreserved c then String.singleton c
  else if c == ' ' then "+"
  else String.join (((String.singleton c).toUTF8.toList).map (fun b => percentEncodeByte b.toNat))

/-- Serialize a whole string under x-www-form-urlencoded encoding. -/
def formEncode (s : String) : String :=
  String.join (s.data.map formEncodeChar)

/-- `params.toString()` on a `URLSearchParams` holding the given ordered
name/value pairs. -/
def urlSearchParamsToString : List (String × String) → String
  | [] => ""
  | [p] => formEncode p.1 ++ "=" ++ formEncode p.2
  | p :: ps => formEncode p.1 ++ "=" ++ formEncode p.2 ++ "&" ++ urlSearchParamsToString ps

/-- The ordered pairs appended by `bookingsApi.getAll(statusFilter?, skip, limit)`:
`status_filter` is appended only when `statusFilter` is truthy (present and
non-empty), then always `skip` and `limit`.  The TS default parameters supply
`skip = 0` and `limit = 50` when the caller omits them. -/
def bookingsGetAllParams (statusFilter : Option String) (skip limit : Nat) :
    List (String × String) :=
  (if (statusFilter.getD "") != "" then [("status_filter", statusFilter.getD "")] else [])
    ++ [("skip", toString skip), ("limit", toString limit)]

/-- The query string built by `bookingsApi.getAll`. -/
def bookingsGetAllQuery (statusFilter : Option String) (skip limit : Nat) : String :=
  urlSearchParamsToString (bookingsGetAllParams statusFilter skip limit)

/-- The full endpoint passed to `apiRequest` by `bookingsApi.getAll`. -/
def bookingsGetAllEndpoint (statusFilter : Option String) (skip limit : Nat) : String :=
  "/admin/bookings?" ++ bookingsGetAllQuery statusFilter skip limit

/-! ### Table components — client-side filtering

`filteredData` of each data-table component.  The bookings variant filters
only by the free-text `globalFilter` (brand/model/year case-insensitively,
phone case-sensitively); its status filter is sent to the server instead.
The insurance and general-requests variants first apply an exact-match
status filter (unless it is `"all"`), then the free-text filter over
brand/model/year. -/

/-- `filteredData` of src/components/bookings/data-table.tsx. -/
def bookingsFilteredData (data : List Row) (globalFilter : String) : List Row :=
  if globalFilter != "" then
    data.filter (fun item =>
      optIncludesCI item.brand globalFilter ||
      optIncludesCI item.model globalFilter ||
      optIncludesCI item.year globalFilter ||
      optIncludes item.phone globalFilter)
  else data

/-- The rows the bookings component hands to the table renderer, as a
function of its held rows and both filter controls.  The `useMemo` computing
`filteredData` depends only on `data` and `globalFilter`; `statusFilter`
only drives the server fetch and is not consulted client-side. -/
def bookingsDisplayedRows (data : List Row) (statusFilter : String)
    (globalFilter : String) : List Row :=
  bookingsFilteredData data globalFilter

/-- `filteredData` of src/components/insurance-requests/data-table.tsx. -/
def insuranceFilteredData (data : List Row) (globalFilter statusFilter : String) : List Row :=
  let filtered := if statusFilter != "all"
    then data.filter (fun item => item.status == statusFilter) else data
  if globalFilter != "" then
    filtered.filter (fun item =>
      optIncludesCI item.brand globalFilter ||
      optIncludesCI item.model globalFilter ||
      optIncludesCI item.year globalFilter)
  else filtered

/-- `filteredData` of src/components/requests/data-table.tsx (textually the
same pipeline as the insurance variant, over general requests). -/
def requestsFilteredData (data : List Row) (globalFilter statusFilter : String) : List Row :=
  let filtered := if statusFilter != "all"
    then data.filter (fun item => item.status == statusFilter) else data
  if globalFilter != "" then
    filtered.filter (fun item =>
      optIncludesCI item.brand globalFilter ||
      optIncludesCI item.model globalFilter ||
      optIncludesCI item.year globalFilter)
  else filtered

/-! ### Table components — optimistic status update (`updateData`) -/

/-- One functional `setData` update of the shape
`old.map((row, index) => index === rowIndex ? { ...row, status: value } : row)`:
replace the status of the row at `rowIndex`, keep everything else. -/
def setRowStatus : List Row → Nat → String → List Row
  | [], _, _ => []
  | r :: rs, 0, v => { r with status := v } :: rs
  | r :: rs, n + 1, v => r :: setRowStatus rs n v

/-- Result of one bookings `updateData` call: the final local row state and
the status-update request sent to the backend, if any. -/
structure BookingsUpdateOutcome where
  state : List Row
  request : Option (String × String)
deriving Repr, DecidableEq

/-- `updateData` of src/components/bookings/data-table.tsx.  Captures the
row (`const booking = data[rowIndex]`), and only when the edited column is
`status` and the row has an `_id`: optimistically writes the new status,
issues `bookingsApi.updateStatus(booking._id, value)`, and on a failure
result rewrites the row status back to the captured `booking.status`.
`backendSuccess` is the settled success flag of the awaited update call.
An out-of-range `rowIndex` is modelled as a no-op (the claims under proof
only concern rows that exist). -/
def bookingsUpdateData (data : List Row) (rowIndex : Nat) (columnId : String)
    (value : String) (backendSuccess : Bool) : BookingsUpdateOutcome :=
  match data[rowIndex]? with
  | none => ⟨data, none⟩
  | some booking =>
    if columnId == "status" then
      match booking._id with
      | none => ⟨data, none⟩
      | some id =>
        let optimistic := setRowStatus data rowIndex value
        if backendSuccess then ⟨optimistic, some (id, value)⟩
        else ⟨setRowStatus optimistic rowIndex booking.status, some (id, value)⟩
    else ⟨data, none⟩

/-- Result of one cached-table `updateData` call: final local row state,
final process-wide cache (`globalCachedData`), and the backend request. -/
structure CachedUpdateOutcome where
  state : List Row
  cache : Option (List Row)
  request : Option (String × String)
deriving Repr, DecidableEq

/-- `updateData` of src/components/insurance-requests/data-table.tsx.  The
optimistic `setData` callback also assigns `globalCachedData = newData`;
the revert callback run on failure updates only the local state and leaves
`globalCachedData` untouched. -/
def insuranceUpdateData (data : List Row) (cache : Option (List Row)) (rowIndex : Nat)
    (columnId : String) (value : String) (backendSuccess : Bool) : CachedUpdateOutcome :=
  match data[rowIndex]? with
  | none => ⟨data, cache, none⟩
  | some request =>
    if columnId == "status" then
      match request._id with
      | none => ⟨data, cache, none⟩
      | some id =>
        let newData := setRowStatus data rowIndex value
        if backendSuccess then ⟨newData, some newData, some (id, value)⟩
        else ⟨setRowStatus newData rowIndex request.status, some newData, some (id, value)⟩
    else ⟨data, cache, none⟩

/-- `updateData` of src/components/requests/data-table.tsx (textually the
same protocol as the insurance variant, against `generalRequestsApi`). -/
def requestsUpdateData (data : List Row) (cache : Option (List Row)) (rowIndex : Nat)
    (columnId : String) (value : String) (backendSuccess : Bool) : CachedUpdateOutcome :=
  match data[rowIndex]? with
  | none => ⟨data, cache, none⟩
  | some request =>
    if columnId == "status" then
      match request._id with
      | none => ⟨data, cache, none⟩
      | some id =>
        let newData := setRowStatus data rowIndex value
        if backendSuccess then ⟨newData, some newData, some (id, value)⟩
        else ⟨setRowStatus newData rowIndex request.status, some newData, some (id, value)⟩
    else ⟨data, cache, none⟩

/-! ### Dashboard page (src/app/dashboard/page.tsx) -/

/-- The `DashboardStats` interface. -/
structure DashboardStats where
  totalBookings : Nat
  pendingBookings : Nat
  completedBookings : Nat
  totalRevenue : Nat
  totalInsuranceRequests : Nat
  pendingInsuranceRequests : Nat
  totalCarRequests : Nat
deriving Repr, DecidableEq

/-- The page state set by `fetchDashboardData` once the `Promise.all`
fan-out has settled (the `loading` flag is false at that point). -/
structure DashboardState where
  stats : Option DashboardStats
  bookings : List Row
  insuranceRequests : List Row
  generalRequests : List Row
  error : Option String
deriving Repr, DecidableEq

/-- State after `fetchDashboardData` processes the four settled responses:
each slice is stored only when its response succeeded with data (otherwise
the `useState` initial value remains — `null` for stats, `[]` for lists),
and a failed stats response additionally sets the error message. -/
def fetchDashboardData (statsR : ApiResponse DashboardStats)
    (bookingsR insuranceR requestsR : ApiResponse (List Row)) : DashboardState :=
  { stats := if statsR.success then statsR.data else none
    bookings := if bookingsR.success then bookingsR.data.getD [] else []
    insuranceRequests := if insuranceR.success then insuranceR.data.getD [] else []
    generalRequests := if requestsR.success then requestsR.data.getD [] else []
    error := if !statsR.success then some "Failed to load dashboard statistics" else none }

/-- What the settled page renders: the error view, or the full page with
the stats and the three held slices. -/
inductive DashboardView where
  | errorView (msg : String)
  | pageView (stats : DashboardStats) (bookings insuranceRequests generalRequests : List Row)
deriving Repr, DecidableEq

/-- Is this the error view? -/
def DashboardView.isError : DashboardView → Bool
  | .errorView _ => true
  | _ => false

/-- The render branch of `DashboardPage` after loading finishes:
`if (error || !stats) return <error view>` with message
`error || 'Failed to load dashboard data'`; otherwise the page body. -/
def renderDashboard (st : DashboardState) : DashboardView :=
  match st.error with
  | some e => .errorView e
  | none =>
    match st.stats with
    | none => .errorView "Failed to load dashboard data"
    | some s => .pageView s st.bookings st.insuranceRequests st.generalRequests

/-! ### Dashboard recent-activity feed -/

/-- One entry of the merged recent-activity feed: a record spread together
with the `type`, `label` and `statusColor` tags added by the mapping step. -/
structure ActivityItem where
  row : Row
  type : String
  label : String
  statusColor : String
deriving Repr, DecidableEq

/-- Tag every record of one source list. -/
def tagActivity (ty lbl color : String) (rows : List Row) : List ActivityItem :=
  rows.map (fun r => ⟨r, ty, lbl, color⟩)

/-- The JavaScript sort comparator
`(a, b) => new Date(b.createdAt).getTime() - new Date(a.createdAt).getTime()`
as a boolean order: `a` may precede `b` exactly when the comparator is
non-positive, i.e. when `b.createdAt ≤ a.createdAt`. -/
def activityLe (a b : ActivityItem) : Bool :=
  decide (b.row.createdAt ≤ a.row.createdAt)

/-- `recentActivity` of the dashboard page: tag the three fetched lists,
concatenate, sort by creation timestamp descending, keep the first five. -/
def recentActivity (bookings insuranceRequests generalRequests : List Row) : List ActivityItem :=
  ((tagActivity "Booking" "Booking" "default" bookings
      ++ tagActivity "Insurance" "Insurance" "secondary" insuranceRequests
      ++ tagActivity "General" "Request" "outline" generalRequests).mergeSort activityLe).take 5

/-! ### Spec-side occurrence predicates for the free-text filter -/

/-- The filter string occurs case-insensitively in an optional field. -/
def occursCI (needle : String) (field : Option String) : Prop :=
  ∃ s, field = some s ∧ (strToLower needle).data <:+: (strToLower s).data

/-- The filter string occurs case-sensitively in an optional field. -/
def occursExact (needle : String) (field : Option String) : Prop :=
  ∃ s, field = some s ∧ needle.data <:+: s.data

/-! ### Concrete sample responses used by witnesses -/

/-- A concrete failed stats response. -/
def statsFailR : ApiResponse DashboardStats := ⟨false, none, some "HTTP error! status: 500 - x"⟩

/-- A concrete successful stats response. -/
def statsOkR : ApiResponse DashboardStats := ⟨true, some ⟨1, 2, 3, 4, 5, 6, 7⟩, none⟩

/-- A concrete successful empty list response. -/
def okListR : ApiResponse (List Row) := ⟨true, some [], none⟩

/-- A concrete failed list response. -/
def failListR : ApiResponse (List Row) := ⟨false, none, some "e"⟩

/-! ### Helper lemmas about `setRowStatus` -/

theorem setRowStatus_get (data : List Row) (i : Nat) (r : Row) (v : String)
    (h : data[i]? = some r) :
    (setRowStatus data i v)[i]? = some { r with status := v } := by
  induction data generalizing i with
  | nil => simp at h
  | cons a as ih =>
    cases i with
    | zero =>
      simp at h
      simp [setRowStatus, h]
    | succ n =>
      simp at h
      simpa [setRowStatus] using ih n h

theorem setRowStatus_revert (data : List Row) (i : Nat) (r : Row) (v : String)
    (h : data[i]? = some r) :
    setRowStatus (setRowStatus data i v) i r.status = data := by
  induction data generalizing i with
  | nil => rfl
  | cons a as ih =>
    cases i with
    | zero =>
      simp at h
      subst h
      clear ih
      cases a
      simp [setRowStatus]
    | succ n =>
      simp at h
      simp [setRowStatus, ih n h]

/-! ### Claim theorems -/

/-- C1: Optimistic status-update round-trip on the table components.  For a
row `r` at `rowIndex` with captured status `r.status = S0` and an `_id`:
the optimistic phase immediately replaces the status of that row with `S1`
in local state; a backend success leaves the local state at the optimistic
value (the status stays `S1`); a backend failure restores the local state
to exactly the pre-update rows (the status is back to `S0`).  Stated for
the bookings variant and the cached insurance variant. -/
theorem optimistic_status_roundTrip
    (data : List Row) (cache : Option (List Row)) (i : Nat) (r : Row) (id S1 : String)
    (hrow : data[i]? = some r) (hid : r._id = some id) :
    (setRowStatus data i S1)[i]? = some { r with status := S1 }
    ∧ (bookingsUpdateData data i "status" S1 true).state = setRowStatus data i S1
    ∧ (bookingsUpdateData data i "status" S1 false).state = data
    ∧ (insuranceUpdateData data cache i "status" S1 true).state = setRowStatus data i S1
    ∧ (insuranceUpdateData data cache i "status" S1 false).state = data := by
  refine ⟨setRowStatus_get data i r S1 hrow, ?_, ?_, ?_, ?_⟩ <;>
    simp [bookingsUpdateData, insuranceUpdateData, hrow, hid,
      setRowStatus_revert data i r S1 hrow]

/-- C1 witness: the round trip evaluated on a one-row bookings table. -/
theorem optimistic_status_roundTrip_witness :
    ([(⟨some "b1", some "555-1", some "Toyota", some "Corolla", some "2021", "pending", 5⟩ : Row)][0]?
        = some ⟨some "b1", some "555-1", some "Toyota", some "Corolla", some "2021", "pending", 5⟩)
    ∧ (Row._id ⟨some "b1", some "555-1", some "Toyota", some "Corolla", some "2021", "pending", 5⟩
        = some "b1")
    ∧ ((setRowStatus [⟨some "b1", some "555-1", some "Toyota", some "Corolla", some "2021", "pending", 5⟩] 0 "confirmed")[0]?
        = some { (⟨some "b1", some "555-1", some "Toyota", some "Corolla", some "2021", "pending", 5⟩ : Row) with status := "confirmed" }
      ∧ (bookingsUpdateData [⟨some "b1", some "555-1", some "Toyota", some "Corolla", some "2021", "pending", 5⟩] 0 "status" "confirmed" true).state
        = setRowStatus [⟨some "b1", some "555-1", some "Toyota", some "Corolla", some "2021", "pending", 5⟩] 0 "confirmed"
      ∧ (bookingsUpdateData [⟨some "b1", some "555-1", some "Toyota", some "Corolla", some "2021", "pending", 5⟩] 0 "status" "confirmed" false).state
        = [⟨some "b1", some "555-1", some "Toyota", some "Corolla", some "2021", "pending", 5⟩]
      ∧ (insuranceUpdateData [⟨some "b1", some "555-1", some "Toyota", some "Corolla", some "2021", "pending", 5⟩] none 0 "status" "confirmed" true).state
        = setRowStatus [⟨some "b1", some "555-1", some "Toyota", some "Corolla", some "2021", "pending", 5⟩] 0 "confirmed"
      ∧ (insuranceUpdateData [⟨some "b1", some "555-1", some "Toyota", some "Corolla", some "2021", "pending", 5⟩] none 0 "status" "confirmed" false).state
        = [⟨some "b1", some "555-1", some "Toyota", some "Corolla", some "2021", "pending", 5⟩]) :=
  ⟨by decide, by decide,
    optimistic_status_roundTrip
      [⟨some "b1", some "555-1", some "Toyota", some "Corolla", some "2021", "pending", 5⟩]
      none 0
      ⟨some "b1", some "555-1", some "Toyota", some "Corolla", some "2021", "pending", 5⟩
      "b1" "confirmed" (by decide) (by decide)⟩

/-- C2 counterexample: in the insurance table, after an optimistic update
whose backend call fails, the process-wide cache does NOT hold the
pre-update row set — it still holds the optimistically updated rows, even
though local state was rolled back. -/
theorem cache_not_rolled_back_cex :
    ((insuranceUpdateData [(⟨some "r1", none, some "Honda", some "City", some "2020", "new", 3⟩ : Row)]
        (some [⟨some "r1", none, some "Honda", some "City", some "2020", "new", 3⟩])
        0 "status" "contacted" false).state
      = [⟨some "r1", none, some "Honda", some "City", some "2020", "new", 3⟩])
    ∧ ((insuranceUpdateData [(⟨some "r1", none, some "Honda", some "City", some "2020", "new", 3⟩ : Row)]
        (some [⟨some "r1", none, some "Honda", some "City", some "2020", "new", 3⟩])
        0 "status" "contacted" false).cache
      = some [⟨some "r1", none, some "Honda", some "City", some "2020", "contacted", 3⟩])
    ∧ ((insuranceUpdateData [(⟨some "r1", none, some "Honda", some "City", some "2020", "new", 3⟩ : Row)]
        (some [⟨some "r1", none, some "Honda", some "City", some "2020", "new", 3⟩])
        0 "status" "contacted" false).cache
      ≠ some [⟨some "r1", none, some "Honda", some "City", some "2020", "new", 3⟩]) := by
  refine ⟨by decide, by decide, by decide⟩

/-- C2 amended: when a status update fails in the cached table variants
(insurance-requests, general-requests), local state is restored to the
pre-update row set, but the process-wide cache is NOT rolled back: it
retains the optimistically updated row set written during the optimistic
phase. -/
theorem cache_keeps_optimistic_on_failure
    (data : List Row) (cache : Option (List Row)) (i : Nat) (r : Row) (id S1 : String)
    (hrow : data[i]? = some r) (hid : r._id = some id) :
    (insuranceUpdateData data cache i "status" S1 false).state = data
    ∧ (insuranceUpdateData data cache i "status" S1 false).cache = some (setRowStatus data i S1)
    ∧ (requestsUpdateData data cache i "status" S1 false).state = data
    ∧ (requestsUpdateData data cache i "status" S1 false).cache = some (setRowStatus data i S1) := by
  refine ⟨?_, ?_, ?_, ?_⟩ <;>
    simp [insuranceUpdateData, requestsUpdateData, hrow, hid,
      setRowStatus_revert data i r S1 hrow]

/-- C2 amended witness: evaluated on a one-row cached table. -/
theorem cache_keeps_optimistic_on_failure_witness :
    ([(⟨some "r1", none, some "Honda", some "City", some "2020", "new", 3⟩ : Row)][0]?
        = some ⟨some "r1", none, some "Honda", some "City", some "2020", "new", 3⟩)
    ∧ (Row._id ⟨some "r1", none, some "Honda", some "City", some "2020", "new", 3⟩ = some "r1")
    ∧ ((insuranceUpdateData [⟨some "r1", none, some "Honda", some "City", some "2020", "new", 3⟩]
          (some []) 0 "status" "contacted" false).state
        = [⟨some "r1", none, some "Honda", some "City", some "2020", "new", 3⟩]
      ∧ (insuranceUpdateData [⟨some "r1", none, some "Honda", some "City", some "2020", "new", 3⟩]
          (some []) 0 "status" "contacted" false).cache
        = some (setRowStatus [⟨some "r1", none, some "Honda", some "City", some "2020", "new", 3⟩] 0 "contacted")
      ∧ (requestsUpdateData [⟨some "r1", none, some "Honda", some "City", some "2020", "new", 3⟩]
          (some []) 0 "status" "contacted" false).state
        = [⟨some "r1", none, some "Honda", some "City", some "2020", "new", 3⟩]
      ∧ (requestsUpdateData [⟨some "r1", none, some "Honda", some "City", some "2020", "new", 3⟩]
          (some []) 0 "status" "contacted" false).cache
        = some (setRowStatus [⟨some "r1", none, some "Honda", some "City", some "2020", "new", 3⟩] 0 "contacted")) :=
  ⟨by decide, by decide,
    cache_keeps_optimistic_on_failure
      [⟨some "r1", none, some "Honda", some "City", some "2020", "new", 3⟩]
      (some []) 0
      ⟨some "r1", none, some "Honda", some "City", some "2020", "new", 3⟩
      "r1" "contacted" (by decide) (by decide)⟩

/-- C10: updateData no-op guard.  When the edited column is not `status`,
or the targeted row exists but has no `_id`, every table variant leaves its
row state (and cache, where present) completely unchanged and issues no
backend request. -/
theorem updateData_noop :
    (∀ (data : List Row) (cache : Option (List Row)) (i : Nat) (col v : String) (b : Bool),
      col ≠ "status" →
      bookingsUpdateData data i col v b = ⟨data, none⟩
      ∧ insuranceUpdateData data cache i col v b = ⟨data, cache, none⟩
      ∧ requestsUpdateData data cache i col v b = ⟨data, cache, none⟩)
    ∧ (∀ (data : List Row) (cache : Option (List Row)) (i : Nat) (r : Row) (v : String) (b : Bool),
      data[i]? = some r → r._id = none →
      bookingsUpdateData data i "status" v b = ⟨data, none⟩
      ∧ insuranceUpdateData data cache i "status" v b = ⟨data, cache, none⟩
      ∧ requestsUpdateData data cache i "status" v b = ⟨data, cache, none⟩) := by
  constructor
  · intro data cache i col v b hcol
    refine ⟨?_, ?_, ?_⟩ <;>
      cases hd : data[i]? <;>
        simp [bookingsUpdateData, insuranceUpdateData, requestsUpdateData, hd, hcol]
  · intro data cache i r v b hrow hid
    refine ⟨?_, ?_, ?_⟩ <;>
      simp [bookingsUpdateData, insuranceUpdateData, requestsUpdateData, hrow, hid]

/-- C10 witness: a non-status edit and an id-less row, evaluated concretely. -/
theorem updateData_noop_witness :
    ("phone" ≠ "status"
      ∧ bookingsUpdateData [(⟨some "b1", none, none, none, none, "pending", 0⟩ : Row)] 0 "phone" "x" true
        = ⟨[⟨some "b1", none, none, none, none, "pending", 0⟩], none⟩
      ∧ insuranceUpdateData [(⟨some "b1", none, none, none, none, "pending", 0⟩ : Row)] (some []) 0 "phone" "x" true
        = ⟨[⟨some "b1", none, none, none, none, "pending", 0⟩], some [], none⟩
      ∧ requestsUpdateData [(⟨some "b1", none, none, none, none, "pending", 0⟩ : Row)] (some []) 0 "phone" "x" true
        = ⟨[⟨some "b1", none, none, none, none, "pending", 0⟩], some [], none⟩)
    ∧ ([(⟨none, none, none, none, none, "new", 0⟩ : Row)][0]? = some ⟨none, none, none, none, none, "new", 0⟩
      ∧ Row._id ⟨none, none, none, none, none, "new", 0⟩ = none
      ∧ bookingsUpdateData [(⟨none, none, none, none, none, "new", 0⟩ : Row)] 0 "status" "x" false
        = ⟨[⟨none, none, none, none, none, "new", 0⟩], none⟩
      ∧ insuranceUpdateData [(⟨none, none, none, none, none, "new", 0⟩ : Row)] none 0 "status" "x" false
        = ⟨[⟨none, none, none, none, none, "new", 0⟩], none, none⟩
      ∧ requestsUpdateData [(⟨none, none, none, none, none, "new", 0⟩ : Row)] none 0 "status" "x" false
        = ⟨[⟨none, none, none, none, none, "new", 0⟩], none, none⟩) :=
  ⟨⟨by decide,
    updateData_noop.1 [⟨some "b1", none, none, none, none, "pending", 0⟩] (some []) 0 "phone" "x" true (by decide)⟩,
   ⟨by decide, by decide,
    updateData_noop.2 [⟨none, none, none, none, none, "new", 0⟩] none 0
      ⟨none, none, none, none, none, "new", 0⟩ "x" false (by decide) (by decide)⟩⟩

/-- C3: the HTTP client never throws to its caller and always returns a
tagged result: every call yields either success with data or failure with
an error message; a 2xx response with parseable JSON yields
`{success: true, data: json}`; a non-2xx, non-401 response yields a failure
whose message folds in the status code and response body text; a network or
parse exception yields a failure carrying the exception message. -/
theorem apiRequest_tagged_result (T : Type) (st : AuthState) (o : FetchOutcome T) :
    ((apiRequest st o).2.success = true ∧ ((apiRequest st o).2.data).isSome = true
      ∨ (apiRequest st o).2.success = false ∧ ((apiRequest st o).2.error).isSome = true)
    ∧ (∀ status body (v : T), o = .response status body (.ok v) → responseOk status = true →
        (apiRequest st o).2 = ⟨true, some v, none⟩)
    ∧ (∀ status body (j : Except String T), o = .response status body j →
        responseOk status = false → status ≠ 401 →
        (apiRequest st o).2
          = ⟨false, none, some ("HTTP error! status: " ++ toString status ++ " - " ++ body)⟩)
    ∧ (∀ msg, o = .networkError msg → (apiRequest st o).2 = ⟨false, none, some msg⟩)
    ∧ (∀ status body msg, o = .response status body (.error msg) → responseOk status = true →
        (apiRequest st o).2 = ⟨false, none, some msg⟩) := by
  have h401ok : ∀ status : Nat, responseOk status = true → (status == 401) = false := by
    intro status h
    simp only [responseOk, Bool.and_eq_true, decide_eq_true_eq] at h
    simp only [beq_eq_false_iff_ne, ne_eq]
    omega
  refine ⟨?_, ?_, ?_, ?_, ?_⟩
  · cases o with
    | networkError msg => simp [apiRequest]
    | response status body j =>
      by_cases h : status == 401
      · simp [apiRequest, h]
      · by_cases hok : responseOk status
        · cases j <;> simp [apiRequest, h, hok]
        · have hok' : responseOk status = false := by simpa using hok
          simp [apiRequest, h, hok']
  · rintro status body v rfl hok
    simp [apiRequest, h401ok status hok, hok]
  · rintro status body j rfl hok h401
    have : (status == 401) = false := by simpa using h401
    simp [apiRequest, this, hok]
  · rintro msg rfl
    simp [apiRequest]
  · rintro status body msg rfl hok
    simp [apiRequest, h401ok status hok, hok]

/-- C3 witness: the three interesting outcome shapes evaluated concretely. -/
theorem apiRequest_tagged_result_witness :
    ((FetchOutcome.response 200 "" (.ok "json") = (FetchOutcome.response 200 "" (.ok "json") : FetchOutcome String)
        ∧ responseOk 200 = true)
      ∧ (apiRequest (⟨none, none⟩ : AuthState) (FetchOutcome.response 200 "" (.ok "json"))).2
          = ⟨true, some "json", none⟩)
    ∧ ((responseOk 500 = false ∧ (500 : Nat) ≠ 401)
      ∧ (apiRequest (⟨none, none⟩ : AuthState)
            (FetchOutcome.response 500 "boom" (.ok "json"))).2
          = ⟨false, none, some "HTTP error! status: 500 - boom"⟩)
    ∧ (apiRequest (T := String) (⟨none, none⟩ : AuthState)
          (FetchOutcome.networkError "Failed to fetch")).2
        = ⟨false, none, some "Failed to fetch"⟩ :=
  ⟨⟨⟨rfl, by decide⟩,
    (apiRequest_tagged_result String ⟨none, none⟩ (.response 200 "" (.ok "json"))).2.1
      200 "" "json" rfl (by decide)⟩,
   ⟨⟨by decide, by decide⟩,
    (apiRequest_tagged_result String ⟨none, none⟩ (.response 500 "boom" (.ok "json"))).2.2.1
      500 "boom" (.ok "json") rfl (by decide) (by decide)⟩,
   (apiRequest_tagged_result String ⟨none, none⟩ (.networkError "Failed to fetch")).2.2.2.1
      "Failed to fetch" rfl⟩

/-- C4: a 401 response makes the client clear the held auth token, both the
in-memory variable and persistent storage, before reporting failure, so the
next `getAuthToken` returns no token; the client also navigates to the
login screen. -/
theorem unauthorized_clears_token (T : Type) (st : AuthState) (body : String)
    (j : Except String T) :
    (apiRequest st (.response 401 body j)).1.auth = ⟨none, none⟩
    ∧ (getAuthToken (apiRequest st (.response 401 body j)).1.auth).1 = none
    ∧ (apiRequest st (.response 401 body j)).2.success = false
    ∧ (apiRequest st (.response 401 body j)).1.redirectedToLogin = true := by
  refine ⟨?_, ?_, ?_, ?_⟩ <;> simp [apiRequest, clearAuthToken, getAuthToken]

/-- C7: query-string construction by the getAll API builders: `status_filter`
is serialized first and omitted when no filter is given, then `skip`, then
`limit`, in that order; the TS defaults are `skip = 0`, `limit = 50`; in
particular `bookingsApi.getAll("confirmed", 0, 50)` builds the query string
`status_filter=confirmed&skip=0&limit=50`. -/
theorem getAll_query_serialization :
    (∀ (S : String) (K L : Nat), S ≠ "" →
      bookingsGetAllParams (some S) K L
        = [("status_filter", S), ("skip", toString K), ("limit", toString L)])
    ∧ (∀ (K L : Nat),
      bookingsGetAllParams none K L = [("skip", toString K), ("limit", toString L)])
    ∧ bookingsGetAllQuery (some "confirmed") 0 50 = "status_filter=confirmed&skip=0&limit=50"
    ∧ bookingsGetAllEndpoint (some "confirmed") 0 50
        = "/admin/bookings?status_filter=confirmed&skip=0&limit=50" := by
  refine ⟨?_, ?_, by decide, by decide⟩
  · intro S K L h
    simp [bookingsGetAllParams, h]
  · intro K L
    simp [bookingsGetAllParams]

/-- C7 witness: the serialization evaluated at the scenario input. -/
theorem getAll_query_serialization_witness :
    ("confirmed" ≠ ""
      ∧ bookingsGetAllParams (some "confirmed") 0 50
          = [("status_filter", "confirmed"), ("skip", toString 0), ("limit", toString 50)]) :=
  ⟨by decide, getAll_query_serialization.1 "confirmed" 0 50 (by decide)⟩

/-- C8: dashboard partial-failure policy.  After the four parallel fetches
settle: a failed stats fetch makes the page render the error view instead
of any stats content; when stats succeeded, failure of the bookings,
insurance, or general-requests fetch alone leaves that slice as an empty
list and the page still renders (not the error view). -/
theorem dashboard_partial_failure (statsR : ApiResponse DashboardStats)
    (bookingsR insuranceR requestsR : ApiResponse (List Row)) :
    (statsR.success = false →
      renderDashboard (fetchDashboardData statsR bookingsR insuranceR requestsR)
        = .errorView "Failed to load dashboard statistics")
    ∧ (∀ s, statsR.success = true → statsR.data = some s →
        (renderDashboard (fetchDashboardData statsR bookingsR insuranceR requestsR)).isError
          = false
        ∧ renderDashboard (fetchDashboardData statsR bookingsR insuranceR requestsR)
            = .pageView s
                (fetchDashboardData statsR bookingsR insuranceR requestsR).bookings
                (fetchDashboardData statsR bookingsR insuranceR requestsR).insuranceRequests
                (fetchDashboardData statsR bookingsR insuranceR requestsR).generalRequests
        ∧ (bookingsR.success = false →
            (fetchDashboardData statsR bookingsR insuranceR requestsR).bookings = [])
        ∧ (insuranceR.success = false →
            (fetchDashboardData statsR bookingsR insuranceR requestsR).insuranceRequests = [])
        ∧ (requestsR.success = false →
            (fetchDashboardData statsR bookingsR insuranceR requestsR).generalRequests = [])) := by
  constructor
  · intro h
    simp [fetchDashboardData, renderDashboard, h]
  · intro s hs hd
    refine ⟨?_, ?_, ?_, ?_, ?_⟩ <;>
      simp_all [fetchDashboardData, renderDashboard, DashboardView.isError]

/-- C8 witness: stats failing alone, then bookings failing alone. -/
theorem dashboard_partial_failure_witness :
    (statsFailR.success = false
      ∧ renderDashboard (fetchDashboardData statsFailR okListR okListR okListR)
          = .errorView "Failed to load dashboard statistics")
    ∧ (statsOkR.success = true
      ∧ statsOkR.data = some ⟨1, 2, 3, 4, 5, 6, 7⟩
      ∧ failListR.success = false
      ∧ (renderDashboard (fetchDashboardData statsOkR failListR okListR okListR)).isError
          = false
      ∧ renderDashboard (fetchDashboardData statsOkR failListR okListR okListR)
          = .pageView ⟨1, 2, 3, 4, 5, 6, 7⟩
              (fetchDashboardData statsOkR failListR okListR okListR).bookings
              (fetchDashboardData statsOkR failListR okListR okListR).insuranceRequests
              (fetchDashboardData statsOkR failListR okListR okListR).generalRequests
      ∧ (fetchDashboardData statsOkR failListR okListR okListR).bookings = []) :=
  ⟨⟨rfl, (dashboard_partial_failure statsFailR okListR okListR okListR).1 rfl⟩,
   ⟨rfl, rfl, rfl,
    ((dashboard_partial_failure statsOkR failListR okListR okListR).2
      ⟨1, 2, 3, 4, 5, 6, 7⟩ rfl rfl).1,
    ((dashboard_partial_failure statsOkR failListR okListR okListR).2
      ⟨1, 2, 3, 4, 5, 6, 7⟩ rfl rfl).2.1,
    ((dashboard_partial_failure statsOkR failListR okListR okListR).2
      ⟨1, 2, 3, 4, 5, 6, 7⟩ rfl rfl).2.2.1 rfl⟩⟩

/-- C9: the recent-activity feed is the five-element truncation of a
descending-by-createdAt ordering of the three source lists tagged with
their labels and concatenated. -/
theorem recentActivity_spec (b i g : List Row) :
    ∃ l : List ActivityItem,
      l.Perm (tagActivity "Booking" "Booking" "default" b
        ++ tagActivity "Insurance" "Insurance" "secondary" i
        ++ tagActivity "General" "Request" "outline" g)
      ∧ l.Pairwise (fun x y => y.row.createdAt ≤ x.row.createdAt)
      ∧ recentActivity b i g = l.take 5 := by
  refine ⟨(tagActivity "Booking" "Booking" "default" b
      ++ tagActivity "Insurance" "Insurance" "secondary" i
      ++ tagActivity "General" "Request" "outline" g).mergeSort activityLe,
    List.mergeSort_perm _ _, ?_, rfl⟩
  have htrans : ∀ x y z : ActivityItem,
      activityLe x y = true → activityLe y z = true → activityLe x z = true := by
    intro x y z hxy hyz
    simp only [activityLe, decide_eq_true_eq] at hxy hyz ⊢
    omega
  have htotal : ∀ x y : ActivityItem, (activityLe x y || activityLe y x) = true := by
    intro x y
    simp only [activityLe, Bool.or_eq_true, decide_eq_true_eq]
    omega
  have := List.sorted_mergeSort htrans htotal
    (tagActivity "Booking" "Booking" "default" b
      ++ tagActivity "Insurance" "Insurance" "secondary" i
      ++ tagActivity "General" "Request" "outline" g)
  exact this.imp (by intro x y h; simpa [activityLe] using h)

/-! ### Correctness of the substring scan, and spec-side occurrence predicates -/

theorem listStartsWith_iff (n : List Char) : ∀ h : List Char,
    (listStartsWith n h = true ↔ n <+: h) := by
  induction n with
  | nil => intro h; simp [listStartsWith]
  | cons a as ih =>
    intro h
    cases h with
    | nil => simp [listStartsWith]
    | cons b bs =>
      rw [List.cons_prefix_cons]
      simp [listStartsWith, ih bs]

theorem strIncludes_iff (hay needle : String) :
    strIncludes hay needle = true ↔ needle.data <:+: hay.data := by
  simp only [strIncludes, List.any_eq_true, List.mem_range]
  constructor
  · rintro ⟨i, _hi, hpre⟩
    rw [listStartsWith_iff] at hpre
    obtain ⟨t, ht⟩ := hpre
    refine ⟨hay.data.take i, t, ?_⟩
    rw [List.append_assoc, ht, List.take_append_drop]
  · rintro ⟨s, t, hst⟩
    refine ⟨s.length, ?_, ?_⟩
    · have hlen := congrArg List.length hst
      simp only [List.length_append] at hlen
      omega
    · rw [listStartsWith_iff]
      have hdrop : hay.data.drop s.length = needle.data ++ t := by
        rw [← hst, List.append_assoc, List.drop_left]
      rw [hdrop]
      exact ⟨t, rfl⟩

theorem optIncludesCI_iff (field : Option String) (needle : String) :
    optIncludesCI field needle = true ↔ occursCI needle field := by
  cases field <;> simp [optIncludesCI, occursCI, strIncludesCI, strIncludes_iff]

theorem optIncludes_iff (field : Option String) (needle : String) :
    optIncludes field needle = true ↔ occursExact needle field := by
  cases field <;> simp [optIncludes, occursExact, strIncludes_iff]

/-- C5 counterexample: the filter string occurs case-insensitively in the
phone field of the only row, yet the bookings free-text filter drops the
row — the phone match in the code is case-sensitive, refuting the claim
that a row is kept iff the filter occurs case-insensitively in one of the
fields. -/
theorem phone_match_case_sensitive_cex :
    occursCI "987ab" (some "987AB")
    ∧ bookingsFilteredData
        [(⟨some "b1", some "987AB", some "Tata", some "Nexon", some "2022", "pending", 0⟩ : Row)]
        "987ab" = [] :=
  ⟨(optIncludesCI_iff (some "987AB") "987ab").mp (by decide), by decide⟩

/-- C5 amended: free-text filtering keeps a row iff the filter occurs
case-insensitively in brand, model or year — or, in the bookings table
only, case-SENSITIVELY in phone; the empty filter string yields the
unfiltered row set. -/
theorem freeTextFilter_spec (data : List Row) (g : String) (r : Row) (hg : g ≠ "") :
    (r ∈ bookingsFilteredData data g ↔
      r ∈ data ∧ (occursCI g r.brand ∨ occursCI g r.model ∨ occursCI g r.year
        ∨ occursExact g r.phone))
    ∧ (r ∈ insuranceFilteredData data g "all" ↔
      r ∈ data ∧ (occursCI g r.brand ∨ occursCI g r.model ∨ occursCI g r.year))
    ∧ (r ∈ requestsFilteredData data g "all" ↔
      r ∈ data ∧ (occursCI g r.brand ∨ occursCI g r.model ∨ occursCI g r.year))
    ∧ bookingsFilteredData data "" = data
    ∧ insuranceFilteredData data "" "all" = data
    ∧ requestsFilteredData data "" "all" = data := by
  have hg' : (g != "") = true := by simpa using hg
  refine ⟨?_, ?_, ?_, ?_, ?_, ?_⟩ <;>
    simp [bookingsFilteredData, insuranceFilteredData, requestsFilteredData, hg',
      List.mem_filter, Bool.or_eq_true, optIncludesCI_iff, optIncludes_iff] <;>
    intro _ <;> tauto

/-- C5 amended witness: one row matched by brand, evaluated concretely. -/
theorem freeTextFilter_spec_witness :
    ("toy" ≠ ""
      ∧ (((⟨some "b1", some "123", some "Toyota", none, none, "pending", 0⟩ : Row)
            ∈ bookingsFilteredData
              [⟨some "b1", some "123", some "Toyota", none, none, "pending", 0⟩] "toy" ↔
          (⟨some "b1", some "123", some "Toyota", none, none, "pending", 0⟩ : Row)
            ∈ [(⟨some "b1", some "123", some "Toyota", none, none, "pending", 0⟩ : Row)]
          ∧ (occursCI "toy" (some "Toyota") ∨ occursCI "toy" (none : Option String)
            ∨ occursCI "toy" (none : Option String) ∨ occursExact "toy" (some "123")))
        ∧ ((⟨some "b1", some "123", some "Toyota", none, none, "pending", 0⟩ : Row)
            ∈ insuranceFilteredData
              [⟨some "b1", some "123", some "Toyota", none, none, "pending", 0⟩] "toy" "all" ↔
          (⟨some "b1", some "123", some "Toyota", none, none, "pending", 0⟩ : Row)
            ∈ [(⟨some "b1", some "123", some "Toyota", none, none, "pending", 0⟩ : Row)]
          ∧ (occursCI "toy" (some "Toyota") ∨ occursCI "toy" (none : Option String)
            ∨ occursCI "toy" (none : Option String)))
        ∧ ((⟨some "b1", some "123", some "Toyota", none, none, "pending", 0⟩ : Row)
            ∈ requestsFilteredData
              [⟨some "b1", some "123", some "Toyota", none, none, "pending", 0⟩] "toy" "all" ↔
          (⟨some "b1", some "123", some "Toyota", none, none, "pending", 0⟩ : Row)
            ∈ [(⟨some "b1", some "123", some "Toyota", none, none, "pending", 0⟩ : Row)]
          ∧ (occursCI "toy" (some "Toyota") ∨ occursCI "toy" (none : Option String)
            ∨ occursCI "toy" (none : Option String)))
        ∧ bookingsFilteredData
            [(⟨some "b1", some "123", some "Toyota", none, none, "pending", 0⟩ : Row)] ""
          = [⟨some "b1", some "123", some "Toyota", none, none, "pending", 0⟩]
        ∧ insuranceFilteredData
            [(⟨some "b1", some "123", some "Toyota", none, none, "pending", 0⟩ : Row)] "" "all"
          = [⟨some "b1", some "123", some "Toyota", none, none, "pending", 0⟩]
        ∧ requestsFilteredData
            [(⟨some "b1", some "123", some "Toyota", none, none, "pending", 0⟩ : Row)] "" "all"
          = [⟨some "b1", some "123", some "Toyota", none, none, "pending", 0⟩])) :=
  ⟨by decide,
    freeTextFilter_spec
      [⟨some "b1", some "123", some "Toyota", none, none, "pending", 0⟩] "toy"
      ⟨some "b1", some "123", some "Toyota", none, none, "pending", 0⟩ (by decide)⟩

/-- C6 counterexample: in the bookings table the status filter is not
applied client-side — with the status filter set to `confirmed` the
component still displays a held row whose status is `pending`, refuting
the claim that every table component client-side yields exactly the rows
whose status equals the selected value. -/
theorem bookings_status_filter_not_clientside_cex :
    bookingsDisplayedRows
        [(⟨some "b1", none, none, none, none, "pending", 0⟩ : Row)] "confirmed" ""
      = [⟨some "b1", none, none, none, none, "pending", 0⟩]
    ∧ ("pending" : String) ≠ "confirmed" :=
  ⟨by decide, by decide⟩

/-- C6 amended: the insurance-requests and general-requests tables apply
the status filter client-side — `all` yields the held rows unchanged and
any other value yields exactly the held rows whose status equals that
value — while the bookings table applies no client-side status filter: its
displayed rows are independent of the status filter value (the filter only
drives the server fetch). -/
theorem status_filter_spec (data : List Row) (sf g : String) (r : Row) :
    (insuranceFilteredData data "" "all" = data)
    ∧ (requestsFilteredData data "" "all" = data)
    ∧ (sf ≠ "all" →
        (r ∈ insuranceFilteredData data "" sf ↔ r ∈ data ∧ r.status = sf))
    ∧ (sf ≠ "all" →
        (r ∈ requestsFilteredData data "" sf ↔ r ∈ data ∧ r.status = sf))
    ∧ (∀ sf', bookingsDisplayedRows data sf g = bookingsDisplayedRows data sf' g) := by
  refine ⟨by simp [insuranceFilteredData], by simp [requestsFilteredData], ?_, ?_,
    fun _ => rfl⟩ <;>
  · intro hsf
    simp [insuranceFilteredData, requestsFilteredData, hsf, List.mem_filter]

/-- C6 amended witness: a two-row table split by status, evaluated
concretely with every hypothesis discharged. -/
theorem status_filter_spec_witness :
    (insuranceFilteredData
        [(⟨some "a", none, none, none, none, "new", 0⟩ : Row),
          ⟨some "b", none, none, none, none, "contacted", 1⟩] "" "all"
      = [⟨some "a", none, none, none, none, "new", 0⟩,
          ⟨some "b", none, none, none, none, "contacted", 1⟩])
    ∧ (requestsFilteredData
        [(⟨some "a", none, none, none, none, "new", 0⟩ : Row),
          ⟨some "b", none, none, none, none, "contacted", 1⟩] "" "all"
      = [⟨some "a", none, none, none, none, "new", 0⟩,
          ⟨some "b", none, none, none, none, "contacted", 1⟩])
    ∧ ("contacted" : String) ≠ "all"
    ∧ ((⟨some "b", none, none, none, none, "contacted", 1⟩ : Row)
          ∈ insuranceFilteredData
            [(⟨some "a", none, none, none, none, "new", 0⟩ : Row),
              ⟨some "b", none, none, none, none, "contacted", 1⟩] "" "contacted" ↔
        (⟨some "b", none, none, none, none, "contacted", 1⟩ : Row)
            ∈ [(⟨some "a", none, none, none, none, "new", 0⟩ : Row),
                ⟨some "b", none, none, none, none, "contacted", 1⟩]
          ∧ Row.status ⟨some "b", none, none, none, none, "contacted", 1⟩ = "contacted")
    ∧ ((⟨some "b", none, none, none, none, "contacted", 1⟩ : Row)
          ∈ requestsFilteredData
            [(⟨some "a", none, none, none, none, "new", 0⟩ : Row),
              ⟨some "b", none, none, none, none, "contacted", 1⟩] "" "contacted" ↔
        (⟨some "b", none, none, none, none, "contacted", 1⟩ : Row)
            ∈ [(⟨some "a", none, none, none, none, "new", 0⟩ : Row),
                ⟨some "b", none, none, none, none, "contacted", 1⟩]
          ∧ Row.status ⟨some "b", none, none, none, none, "contacted", 1⟩ = "contacted")
    ∧ bookingsDisplayedRows
          [(⟨some "a", none, none, none, none, "new", 0⟩ : Row),
            ⟨some "b", none, none, none, none, "contacted", 1⟩] "contacted" ""
        = bookingsDisplayedRows
            [(⟨some "a", none, none, none, none, "new", 0⟩ : Row),
              ⟨some "b", none, none, none, none, "contacted", 1⟩] "pending" "" :=
  ⟨(status_filter_spec
      [⟨some "a", none, none, none, none, "new", 0⟩,
        ⟨some "b", none, none, none, none, "contacted", 1⟩]
      "contacted" "" ⟨some "b", none, none, none, none, "contacted", 1⟩).1,
   (status_filter_spec
      [⟨some "a", none, none, none, none, "new", 0⟩,
        ⟨some "b", none, none, none, none, "contacted", 1⟩]
      "contacted" "" ⟨some "b", none, none, none, none, "contacted", 1⟩).2.1,
   by decide,
   (status_filter_spec
      [⟨some "a", none, none, none, none, "new", 0⟩,
        ⟨some "b", none, none, none, none, "contacted", 1⟩]
      "contacted" "" ⟨some "b", none, none, none, none, "contacted", 1⟩).2.2.1 (by decide),
   (status_filter_spec
      [⟨some "a", none, none, none, none, "new", 0⟩,
        ⟨some "b", none, none, none, none, "contacted", 1⟩]
      "contacted" "" ⟨some "b", none, none, none, none, "contacted", 1⟩).2.2.2.1 (by decide),
   (status_filter_spec
      [⟨some "a", none, none, none, none, "new", 0⟩,
        ⟨some "b", none, none, none, none, "contacted", 1⟩]
      "contacted" "" ⟨some "b", none, none, none, none, "contacted", 1⟩).2.2.2.2 "pending"⟩

end Drvyn
